import Mathlib

/-!
Shallow embedding of the `compound` repository (compound-interest CLI).

Python `Decimal` values are embedded as exact rationals `ℚ`; `Decimal`
arithmetic in the source runs at 28 significant digits of precision, which
is treated as exact here.  Python `float` intermediates (the YTD-growth
percentage and the derived-metric formulas) are likewise embedded as exact
rationals; `round(x, k)` on floats is embedded as decimal round-half-even,
and `Decimal.quantize(Decimal("0.01"), ROUND_HALF_UP)` as decimal
round-half-away-from-zero at 2 places.
-/

deriving instance DecidableEq for Except

namespace Compound

/-- Floor of a rational, written so that it evaluates by kernel reduction
(the denominator of a `ℚ` is positive, so Euclidean division of the
numerator by it is the floor). -/
def floorQ (x : ℚ) : ℤ := x.num / (x.den : ℤ)

/-- `Decimal.quantize(Decimal("0.01"), rounding=ROUND_HALF_UP)`:
round to 2 decimal places, ties away from zero
(`_round_currency` in `calculator.py`). -/
def roundCurrency (x : ℚ) : ℚ :=
  if 0 ≤ x then (floorQ (x * 100 + 1/2) : ℚ) / 100
  else -((floorQ ((-x) * 100 + 1/2) : ℚ) / 100)

/-- Python `round(x, k)` on a float: round to `k` decimal places,
ties to even. -/
def roundHalfEvenAt (k : ℕ) (x : ℚ) : ℚ :=
  let s : ℚ := (10 : ℚ) ^ k
  let m : ℤ := floorQ (x * s)
  let f : ℚ := x * s - m
  let n : ℤ :=
    if f < 1/2 then m
    else if 1/2 < f then m + 1
    else if m % 2 = 0 then m else m + 1
  (n : ℚ) / s

/-- `YearlySnapshot` dataclass from `calculator.py`. -/
structure YearlySnapshot where
  year : ℕ
  balance : ℚ
  interest_earned : ℚ
  contributions_ytd : ℚ
  ytd_growth_pct : ℚ
  cumulative_interest : ℚ
deriving Repr, DecidableEq

/-- Result of `calculate_doubling_time`: either `float("inf")`, the
closed-form value `ln 2 / (n * ln (1 + r/n))` rounded to 1 decimal
(kept symbolically, as it is transcendental), or the Rule-of-72 fallback
value. -/
inductive DTime where
  | inf : DTime
  | closedForm (rate : ℚ) (n : ℕ) : DTime
  | ruleOf72 (v : ℚ) : DTime
deriving Repr, DecidableEq

/-- `ProjectionResult` dataclass from `calculator.py`. -/
structure ProjectionResult where
  principal : ℚ
  final_amount : ℚ
  total_interest : ℚ
  total_contributions : ℚ
  effective_apy : ℚ
  doubling_time : DTime
  rate : ℚ
  years : ℕ
  compound_freq : ℕ
  contribution : ℚ
  contribution_freq : ℕ
  yearly_breakdown : List YearlySnapshot
deriving Repr, DecidableEq

/-- `calculate_effective_apy`: `(1 + r/n)^n - 1` (computed in float in the
source, exact here). -/
def calculate_effective_apy (rate : ℚ) (n : ℕ) : ℚ :=
  (1 + rate / n) ^ n - 1

/-- `calculate_doubling_time` from `calculator.py`.  The source returns
`inf` when `r <= 0`; otherwise it tries
`math.log(2) / (n * math.log(1 + r/n))` and falls back to
`round(72 / (r * 100), 1)` on `ValueError` (log of a non-positive number,
i.e. `1 + r/n ≤ 0`) or `ZeroDivisionError` (`log(1 + r/n) = 0`, i.e.
`r = 0` in exact arithmetic).  The float-rounding case where `1 + r/n`
rounds to exactly `1.0` for tiny positive `r` is not modelled. -/
def calculate_doubling_time (rate : ℚ) (n : ℕ) : DTime :=
  if rate ≤ 0 then .inf
  else if 1 + rate / n ≤ 0 ∨ rate = 0 then
    .ruleOf72 (roundHalfEvenAt 1 (72 / (rate * 100)))
  else .closedForm rate n

/-- `periods_per_contribution` as computed inside the period loop of
`calculate_compound_interest`: `compound_freq // contribution_freq`,
replaced by 1 when that floor quotient is 0. -/
def periodsPerContribution (compound_freq contribution_freq : ℕ) : ℕ :=
  let p := compound_freq / contribution_freq
  if p = 0 then 1 else p

/-- Mutable state of the inner (period) loop. -/
structure PeriodState where
  balance : ℚ
  year_interest : ℚ
  year_contributions : ℚ
  total_contributions : ℚ
deriving Repr, DecidableEq

/-- One iteration of `for period in range(compound_freq)`:
accrue one period of interest, then add the contribution when
`(period + 1) % periods_per_contribution == 0` (and `contribution > 0`). -/
def periodStep (period_rate contribution : ℚ) (ppc : ℕ) (st : PeriodState)
    (period : ℕ) : PeriodState :=
  let interest := st.balance * period_rate
  let balance := st.balance + interest
  let year_interest := st.year_interest + interest
  if 0 < contribution ∧ (period + 1) % ppc = 0 then
    { balance := balance + contribution
      year_interest := year_interest
      year_contributions := st.year_contributions + contribution
      total_contributions := st.total_contributions + contribution }
  else
    { balance := balance
      year_interest := year_interest
      year_contributions := st.year_contributions
      total_contributions := st.total_contributions }

/-- The whole inner loop of one simulated year, starting from the year's
opening balance and the running contribution total. -/
def runYearPeriods (period_rate contribution : ℚ) (ppc compound_freq : ℕ)
    (balance total_contributions : ℚ) : PeriodState :=
  (List.range compound_freq).foldl (periodStep period_rate contribution ppc)
    ⟨balance, 0, 0, total_contributions⟩

/-- Mutable state of the outer (year) loop. -/
structure LoopState where
  balance : ℚ
  total_contributions : ℚ
  cumulative_interest : ℚ
  breakdown : List YearlySnapshot
deriving Repr, DecidableEq

/-- One iteration of `for year in range(1, years + 1)`: run the period
loop, update cumulative interest, compute the YTD growth percentage and
append a `YearlySnapshot`. -/
def yearStep (period_rate contribution : ℚ) (ppc compound_freq : ℕ)
    (st : LoopState) (year : ℕ) : LoopState :=
  let ps := runYearPeriods period_rate contribution ppc compound_freq
    st.balance st.total_contributions
  let cumulative_interest := st.cumulative_interest + ps.year_interest
  let ytd_growth : ℚ :=
    if 0 < st.balance then roundHalfEvenAt 2 (ps.year_interest / st.balance * 100)
    else 0
  { balance := ps.balance
    total_contributions := ps.total_contributions
    cumulative_interest := cumulative_interest
    breakdown := st.breakdown ++
      [{ year := year
         balance := roundCurrency ps.balance
         interest_earned := roundCurrency ps.year_interest
         contributions_ytd := roundCurrency ps.year_contributions
         ytd_growth_pct := ytd_growth
         cumulative_interest := roundCurrency cumulative_interest }] }

/-- State of the simulation after the first `y` years
(`List.range' 1 y = [1, …, y]` mirrors `range(1, years + 1)`). -/
def stateAfter (principal rate contribution : ℚ)
    (compound_freq contribution_freq y : ℕ) : LoopState :=
  (List.range' 1 y).foldl
    (yearStep (rate / compound_freq) contribution
      (periodsPerContribution compound_freq contribution_freq) compound_freq)
    ⟨principal, 0, 0, []⟩

/-- `calculate_compound_interest` from `calculator.py`. -/
def calculate_compound_interest (principal rate : ℚ) (years : ℕ)
    (compound_freq : ℕ := 1) (contribution : ℚ := 0)
    (contribution_freq : ℕ := 12) : ProjectionResult :=
  let final := stateAfter principal rate contribution
    compound_freq contribution_freq years
  { principal := principal
    final_amount := roundCurrency final.balance
    total_interest := roundCurrency final.cumulative_interest
    total_contributions := roundCurrency final.total_contributions
    effective_apy := calculate_effective_apy rate compound_freq
    doubling_time := calculate_doubling_time rate compound_freq
    rate := rate
    years := years
    compound_freq := compound_freq
    contribution := contribution
    contribution_freq := contribution_freq
    yearly_breakdown := final.breakdown }

/-- `RenderOptions` dataclass from `formatters/__init__.py`. -/
structure RenderOptions where
  show_chart : Bool := true
  show_table : Bool := true
  quiet : Bool := false
deriving Repr, DecidableEq

/-- One cell written by the CSV writer (before stringification). -/
inductive CsvCell where
  | str : String → CsvCell
  | nat : ℕ → CsvCell
  | num : ℚ → CsvCell
deriving Repr, DecidableEq

/-- `CsvFormatter.render` from `formatters/csv_fmt.py`, modelled as the list
of rows handed to `csv.writer` (stringification and line terminators are
presentation-level and not modelled). -/
def CsvFormatter_render (result : ProjectionResult) (options : RenderOptions) :
    List (List CsvCell) :=
  if options.quiet then
    [[.str "final_amount"], [.num result.final_amount]]
  else
    [CsvCell.str "year", .str "balance", .str "interest_earned",
      .str "contributions_ytd", .str "ytd_growth_pct",
      .str "cumulative_interest"] ::
    result.yearly_breakdown.map (fun snap =>
      [CsvCell.nat snap.year, .num snap.balance, .num snap.interest_earned,
        .num snap.contributions_ytd, .num snap.ytd_growth_pct,
        .num snap.cumulative_interest])

/-- JSON values as built by `json_fmt.py` (numbers kept as exact rationals;
the doubling time keeps its symbolic `DTime` form). -/
inductive JValue where
  | num : ℚ → JValue
  | nat : ℕ → JValue
  | dtime : DTime → JValue
  | arr : List JValue → JValue
  | obj : List (String × JValue) → JValue
deriving Repr

/-- `JsonFormatter.render` from `formatters/json_fmt.py`, modelled as the
JSON tree passed to `json.dumps`. -/
def JsonFormatter_render (result : ProjectionResult) (options : RenderOptions) :
    JValue :=
  if options.quiet then
    .obj [("final_amount", .num result.final_amount)]
  else
    .obj
      [("summary", .obj
          [("principal", .num result.principal),
           ("final_amount", .num result.final_amount),
           ("total_interest", .num result.total_interest),
           ("total_contributions", .num result.total_contributions),
           ("effective_apy", .num result.effective_apy),
           ("doubling_time_years", .dtime result.doubling_time)]),
       ("parameters", .obj
          [("rate", .num result.rate),
           ("years", .nat result.years),
           ("compound_frequency", .nat result.compound_freq),
           ("contribution", .num result.contribution),
           ("contribution_frequency", .nat result.contribution_freq)]),
       ("yearly_breakdown", .arr
          (result.yearly_breakdown.map (fun snap =>
            .obj [("year", .nat snap.year),
                  ("balance", .num snap.balance),
                  ("interest_earned", .num snap.interest_earned),
                  ("contributions_ytd", .num snap.contributions_ytd),
                  ("ytd_growth_pct", .num snap.ytd_growth_pct),
                  ("cumulative_interest", .num snap.cumulative_interest)])))]

/-- ASCII whitespace, as stripped by Python `str.strip()` (which also
strips some further Unicode whitespace, not modelled). -/
def isPySpace (c : Char) : Bool :=
  c = ' ' || c = '\t' || c = '\n' || c = '\r' || c = '\x0b' || c = '\x0c'

/-- Python `str.strip()`: drop leading and trailing whitespace.  Written
over the character list so that it evaluates by kernel reduction. -/
def strStrip (s : String) : String :=
  ⟨((s.data.dropWhile isPySpace).reverse.dropWhile isPySpace).reverse⟩

/-- Python `str.lower()` (ASCII range). -/
def strLower (s : String) : String :=
  ⟨s.data.map Char.toLower⟩

/-- `FREQUENCY_MAP` from `utils.py`, in source order. -/
def FREQUENCY_MAP : List (String × ℤ) :=
  [("daily", 365), ("weekly", 52), ("biweekly", 26), ("monthly", 12),
   ("quarterly", 4), ("semiannually", 2), ("annually", 1), ("yearly", 1)]

/-- Digit run of a Python integer literal: decimal digits with single
underscores allowed between digits (accumulator holds the value so far;
the caller guarantees the first character is a digit). -/
def digitCore : List Char → ℕ → Option ℕ
  | [], acc => some acc
  | ['_'], _ => none
  | '_' :: '_' :: _, _ => none
  | '_' :: c :: rest, acc =>
      if c.isDigit then digitCore rest (acc * 10 + (c.toNat - 48)) else none
  | c :: rest, acc =>
      if c.isDigit then digitCore rest (acc * 10 + (c.toNat - 48)) else none

/-- Nonempty digit run starting with a digit. -/
def parseNatDigits (cs : List Char) : Option ℕ :=
  match cs with
  | [] => none
  | c :: _ => if c.isDigit then digitCore cs 0 else none

/-- Python `int(s)` on a base-10 string: surrounding whitespace stripped,
optional sign, ASCII digits with single underscores between digits.
Returns `none` where Python raises `ValueError`. -/
def pythonIntOfString (s : String) : Option ℤ :=
  match (strStrip s).data with
  | '+' :: rest => (parseNatDigits rest).map (fun n => (n : ℤ))
  | '-' :: rest => (parseNatDigits rest).map (fun n => -(n : ℤ))
  | cs => (parseNatDigits cs).map (fun n => (n : ℤ))

/-- The comma-joined list of valid frequency names used in the error
message of `parse_frequency`. -/
def freqValidNames : String :=
  String.intercalate ", " (FREQUENCY_MAP.map Prod.fst)

/-- The `ValueError` message raised by `parse_frequency` (the source wraps
the offending value in single quotation marks; those are omitted here). -/
def freqErrorMessage (v : String) : String :=
  "Invalid frequency " ++ v ++ ". Use: " ++ freqValidNames ++ " or an integer."

/-- `parse_frequency` from `utils.py` on a string argument: strip and
lowercase, look the value up in `FREQUENCY_MAP`, otherwise try `int(...)`,
otherwise raise `ValueError` listing the valid names. -/
def parse_frequency (value : String) : Except String ℤ :=
  let v := strLower (strStrip value)
  match FREQUENCY_MAP.lookup v with
  | some n => .ok n
  | none =>
    match pythonIntOfString v with
    | some n => .ok n
    | none => .error (freqErrorMessage v)

/-- Arguments handed from `main` to `calculate_compound_interest`. -/
structure EngineArgs where
  principal : ℚ
  rate : ℚ
  years : ℤ
  compound_freq : ℤ
  contribution : ℚ
  contribution_freq : ℤ
deriving Repr, DecidableEq

/-- The validation chain of `main` in `cli.py` (lines 126-180), in source
order: negative-principal check, rate parse (the high-rate warning is
non-fatal), `parse_frequency` on the compounding argument,
negative-contribution check, `parse_frequency` on the contribution
frequency, positivity check on the duration — and no check whatsoever on
either parsed frequency.  Amount and rate parsing are modelled at the
value level; the two frequency arguments keep their raw command-line
strings.  On success the returned `EngineArgs` is passed directly to the
engine, whose first operation is the division `rate / compound_freq`. -/
def cliValidate (principal rate : ℚ) (time : ℤ)
    (compoundStr contributionFreqStr : String) (contribution : ℚ) :
    Except String EngineArgs :=
  if principal < 0 then .error "Principal cannot be negative."
  else
    match parse_frequency compoundStr with
    | .error e => .error e
    | .ok compound_freq =>
      if contribution < 0 then .error "Contribution cannot be negative."
      else
        match parse_frequency contributionFreqStr with
        | .error e => .error e
        | .ok contribution_freq =>
          if time ≤ 0 then .error "Time must be positive."
          else .ok ⟨principal, rate, time, compound_freq,
                    contribution, contribution_freq⟩

/-- The `YearlySnapshot` appended in year `i + 1` of the simulation,
expressed through the state reached after the first `i` years. -/
def snapshotOfYear (principal rate contribution : ℚ)
    (compound_freq contribution_freq i : ℕ) : YearlySnapshot :=
  let st := stateAfter principal rate contribution compound_freq contribution_freq i
  let ps := runYearPeriods (rate / compound_freq) contribution
    (periodsPerContribution compound_freq contribution_freq) compound_freq
    st.balance st.total_contributions
  let cum := st.cumulative_interest + ps.year_interest
  { year := i + 1
    balance := roundCurrency ps.balance
    interest_earned := roundCurrency ps.year_interest
    contributions_ytd := roundCurrency ps.year_contributions
    ytd_growth_pct :=
      if 0 < st.balance then roundHalfEvenAt 2 (ps.year_interest / st.balance * 100)
      else 0
    cumulative_interest := roundCurrency cum }

/-! ## Helper lemmas -/

theorem floorQ_eq (x : ℚ) : floorQ x = ⌊x⌋ := Rat.floor_def.symm

theorem abs_floor_half_sub_le (y : ℚ) : |(⌊y + 1/2⌋ : ℚ) - y| ≤ 1/2 := by
  rw [abs_le]
  constructor
  · have h := Int.lt_floor_add_one (y + 1/2)
    linarith
  · have h := Int.floor_le (y + 1/2)
    linarith

theorem abs_roundCurrency_sub_le (x : ℚ) : |roundCurrency x - x| ≤ 1/200 := by
  unfold roundCurrency
  rw [floorQ_eq, floorQ_eq]
  split
  · have h := abs_floor_half_sub_le (x * 100)
    rw [abs_le] at h ⊢
    constructor <;> linarith [h.1, h.2]
  · have h := abs_floor_half_sub_le (-x * 100)
    rw [abs_le] at h ⊢
    constructor <;> linarith [h.1, h.2]

theorem floor_intCast_add_half (m : ℤ) : ⌊(m : ℚ) + 1/2⌋ = m := by
  rw [add_comm, Int.floor_add_int]
  norm_num

/-- Rounding to currency is the identity on whole numbers of cents. -/
theorem roundCurrency_cents (m : ℤ) : roundCurrency ((m : ℚ) / 100) = (m : ℚ) / 100 := by
  unfold roundCurrency
  rw [floorQ_eq, floorQ_eq]
  split
  · rw [show ((m : ℚ) / 100 * 100 + 1/2) = (m : ℚ) + 1/2 by ring,
      floor_intCast_add_half]
  · rw [show (-((m : ℚ) / 100) * 100 + 1/2) = ((-m : ℤ) : ℚ) + 1/2 by push_cast; ring,
      floor_intCast_add_half]
    push_cast
    ring_nf

/-! ## The period loop with zero contribution -/

theorem periodStep_zero (pr : ℚ) (ppc : ℕ) (st : PeriodState) (p : ℕ) :
    periodStep pr 0 ppc st p =
      ⟨st.balance * (1 + pr), st.year_interest + st.balance * pr,
        st.year_contributions, st.total_contributions⟩ := by
  cases st with
  | mk b yi yc tc =>
    simp only [periodStep, lt_irrefl, false_and, if_false, PeriodState.mk.injEq]
    refine ⟨by ring_nf, by ring_nf, trivial, trivial⟩

theorem foldl_periodStep_zero (pr : ℚ) (ppc : ℕ) (l : List ℕ) (st : PeriodState) :
    l.foldl (periodStep pr 0 ppc) st =
      ⟨st.balance * (1 + pr) ^ l.length,
        st.year_interest + st.balance * ((1 + pr) ^ l.length - 1),
        st.year_contributions, st.total_contributions⟩ := by
  induction l generalizing st with
  | nil =>
    cases st with
    | mk b yi yc tc =>
      simp only [List.foldl_nil, List.length_nil, pow_zero, PeriodState.mk.injEq]
      refine ⟨by ring, by ring, trivial, trivial⟩
  | cons a l ih =>
    rw [List.foldl_cons, periodStep_zero, ih]
    simp only [List.length_cons, PeriodState.mk.injEq]
    refine ⟨by ring, by ring, trivial, trivial⟩

theorem runYearPeriods_zero (pr : ℚ) (ppc cf : ℕ) (b tc : ℚ) :
    runYearPeriods pr 0 ppc cf b tc =
      ⟨b * (1 + pr) ^ cf, b * ((1 + pr) ^ cf - 1), 0, tc⟩ := by
  rw [runYearPeriods, foldl_periodStep_zero]
  simp

/-! ## The year loop -/

theorem stateAfter_succ (P r c : ℚ) (cf xf y : ℕ) :
    stateAfter P r c cf xf (y + 1) =
      yearStep (r / cf) c (periodsPerContribution cf xf) cf
        (stateAfter P r c cf xf y) (1 + y) := by
  unfold stateAfter
  rw [List.range'_concat, List.foldl_append]
  simp

theorem stateAfter_balance_zero (P r : ℚ) (cf xf : ℕ) :
    ∀ y : ℕ, (stateAfter P r 0 cf xf y).balance = P * (1 + r / cf) ^ (cf * y) := by
  intro y
  induction y with
  | zero => simp [stateAfter]
  | succ y ih =>
    rw [stateAfter_succ]
    simp only [yearStep, runYearPeriods_zero, ih]
    rw [mul_add, pow_add, mul_one]
    ring

theorem stateAfter_breakdown (P r c : ℚ) (cf xf : ℕ) :
    ∀ y : ℕ, (stateAfter P r c cf xf y).breakdown
      = (List.range y).map (snapshotOfYear P r c cf xf) := by
  intro y
  induction y with
  | zero => simp [stateAfter]
  | succ y ih =>
    rw [stateAfter_succ, List.range_succ, List.map_append]
    simp only [yearStep, ih, List.map_cons, List.map_nil, List.append_cancel_left_eq]
    simp [snapshotOfYear, Nat.add_comm]

/-! ## Claim theorems -/

/-- C1: for every non-negative principal `P`, rate `r`, positive integer
years `Y`, positive compounding frequency `n`, with contribution `0`, the
`final_amount` produced by `calculate_compound_interest` equals
`P * (1 + r/n)^(n*Y)` within half a cent (it is exactly that value rounded
to whole cents, ties away from zero). -/
theorem final_amount_closed_form (P r : ℚ) (Y n : ℕ)
    (hP : 0 ≤ P) (hY : 1 ≤ Y) (hn : 1 ≤ n) :
    (calculate_compound_interest P r Y n 0 12).final_amount
        = roundCurrency (P * (1 + r / n) ^ (n * Y))
    ∧ |(calculate_compound_interest P r Y n 0 12).final_amount
        - P * (1 + r / n) ^ (n * Y)| ≤ 1 / 200 := by
  have hfe : (calculate_compound_interest P r Y n 0 12).final_amount
      = roundCurrency ((stateAfter P r 0 n 12 Y).balance) := rfl
  rw [hfe, stateAfter_balance_zero]
  exact ⟨rfl, abs_roundCurrency_sub_le _⟩

/-- Witness for C1 at the spec scenario: principal 10000, rate 7%,
10 years, monthly compounding. -/
theorem final_amount_closed_form_witness :
    (calculate_compound_interest 10000 (7/100) 10 12 0 12).final_amount
        = roundCurrency (10000 * (1 + (7:ℚ)/100 / ((12:ℕ):ℚ)) ^ (12 * 10))
    ∧ |(calculate_compound_interest 10000 (7/100) 10 12 0 12).final_amount
        - 10000 * (1 + (7:ℚ)/100 / ((12:ℕ):ℚ)) ^ (12 * 10)| ≤ 1 / 200 :=
  final_amount_closed_form 10000 (7/100) 10 12 (by norm_num) (by norm_num)
    (by norm_num)

/-- C2: for every valid input (`years ≥ 1`, frequencies `≥ 1`), the
`yearly_breakdown` has length exactly `years` and its `year` fields are
the ascending sequence `1, …, years`. -/
theorem yearly_breakdown_length_and_years (P r c : ℚ) (Y cf xf : ℕ)
    (hY : 1 ≤ Y) (hcf : 1 ≤ cf) (hxf : 1 ≤ xf) :
    (calculate_compound_interest P r Y cf c xf).yearly_breakdown.length = Y
    ∧ (calculate_compound_interest P r Y cf c xf).yearly_breakdown.map
        (fun s => s.year) = List.range' 1 Y := by
  have hb : (calculate_compound_interest P r Y cf c xf).yearly_breakdown
      = (List.range Y).map (snapshotOfYear P r c cf xf) :=
    stateAfter_breakdown P r c cf xf Y
  rw [hb]
  refine ⟨by simp, ?_⟩
  rw [List.map_map, List.range'_eq_map_range]
  refine List.map_congr_left (fun a ha => ?_)
  simp [snapshotOfYear, Nat.add_comm]

/-- Witness for C2 at years 3, monthly compounding. -/
theorem yearly_breakdown_length_and_years_witness :
    (calculate_compound_interest 1000 (5/100) 3 12 0 12).yearly_breakdown.length = 3
    ∧ (calculate_compound_interest 1000 (5/100) 3 12 0 12).yearly_breakdown.map
        (fun s => s.year) = List.range' 1 3 :=
  yearly_breakdown_length_and_years 1000 (5/100) 0 3 12 12 (by norm_num)
    (by norm_num) (by norm_num)

/-- C3: for every valid input, `final_amount` equals the balance of the
last snapshot, and `total_interest` equals its cumulative interest. -/
theorem final_amount_matches_last_snapshot (P r c : ℚ) (Y cf xf : ℕ)
    (hY : 1 ≤ Y) (hcf : 1 ≤ cf) (hxf : 1 ≤ xf) :
    ∃ last : YearlySnapshot,
      (calculate_compound_interest P r Y cf c xf).yearly_breakdown.getLast?
          = some last
      ∧ (calculate_compound_interest P r Y cf c xf).final_amount = last.balance
      ∧ (calculate_compound_interest P r Y cf c xf).total_interest
          = last.cumulative_interest := by
  obtain ⟨y, rfl⟩ : ∃ y, Y = y + 1 := ⟨Y - 1, (Nat.succ_pred_eq_of_pos hY).symm⟩
  refine ⟨snapshotOfYear P r c cf xf y, ?_, ?_, ?_⟩
  · have hb : (calculate_compound_interest P r (y+1) cf c xf).yearly_breakdown
        = (List.range (y+1)).map (snapshotOfYear P r c cf xf) :=
      stateAfter_breakdown P r c cf xf (y+1)
    rw [hb, List.range_succ, List.map_append]
    simp
  · show roundCurrency ((stateAfter P r c cf xf (y+1)).balance) = _
    rw [stateAfter_succ]
    rfl
  · show roundCurrency ((stateAfter P r c cf xf (y+1)).cumulative_interest) = _
    rw [stateAfter_succ]
    rfl

/-- Witness for C3 at years 2, quarterly compounding. -/
theorem final_amount_matches_last_snapshot_witness :
    ∃ last : YearlySnapshot,
      (calculate_compound_interest 500 (3/100) 2 4 0 12).yearly_breakdown.getLast?
          = some last
      ∧ (calculate_compound_interest 500 (3/100) 2 4 0 12).final_amount
          = last.balance
      ∧ (calculate_compound_interest 500 (3/100) 2 4 0 12).total_interest
          = last.cumulative_interest :=
  final_amount_matches_last_snapshot 500 (3/100) 0 2 4 12 (by norm_num)
    (by norm_num) (by norm_num)

/-! ## Contribution counting (for C4) -/

theorem periodsPerContribution_eq_max (cf xf : ℕ) :
    periodsPerContribution cf xf = max 1 (cf / xf) := by
  unfold periodsPerContribution
  dsimp only
  rcases Nat.eq_zero_or_pos (cf / xf) with h | h
  · simp [h]
  · rw [if_neg (Nat.pos_iff_ne_zero.mp h), max_eq_right h]

theorem periodStep_total (pr c : ℚ) (hc : 0 < c) (ppc : ℕ) (st : PeriodState)
    (p : ℕ) :
    (periodStep pr c ppc st p).total_contributions
      = st.total_contributions + if ppc ∣ (p + 1) then c else 0 := by
  simp only [periodStep, Nat.dvd_iff_mod_eq_zero]
  by_cases h : (p + 1) % ppc = 0
  · simp [h, hc]
  · simp [h]

theorem foldl_periodStep_total (pr c : ℚ) (hc : 0 < c) (ppc : ℕ) :
    ∀ (l : List ℕ) (st : PeriodState),
      (l.foldl (periodStep pr c ppc) st).total_contributions
        = st.total_contributions
          + c * (l.countP (fun p => decide ((p + 1) % ppc = 0))) := by
  intro l
  induction l with
  | nil => intro st; simp
  | cons a l ih =>
    intro st
    rw [List.foldl_cons, ih, periodStep_total pr c hc ppc st a]
    by_cases hmod : (a + 1) % ppc = 0
    · rw [List.countP_cons_of_pos _ _ (by simp [hmod]),
        if_pos (Nat.dvd_of_mod_eq_zero hmod)]
      push_cast
      ring
    · rw [List.countP_cons_of_neg _ _ (by simp [hmod]),
        if_neg (fun hd => hmod (Nat.dvd_iff_mod_eq_zero.mp hd))]
      ring

theorem countP_range_dvd (ppc : ℕ) :
    ∀ cf : ℕ,
      (List.range cf).countP (fun p => decide ((p + 1) % ppc = 0)) = cf / ppc := by
  intro cf
  induction cf with
  | zero => simp
  | succ cf ih =>
    rw [List.range_succ, List.countP_append, ih, Nat.succ_div]
    by_cases h : (cf + 1) % ppc = 0
    · simp [h, Nat.dvd_iff_mod_eq_zero]
    · simp [h, Nat.dvd_iff_mod_eq_zero]

theorem yearStep_total (pr c : ℚ) (hc : 0 < c) (ppc cf : ℕ) (st : LoopState)
    (y : ℕ) :
    (yearStep pr c ppc cf st y).total_contributions
      = st.total_contributions + c * ((cf / ppc : ℕ) : ℚ) := by
  show (runYearPeriods pr c ppc cf st.balance st.total_contributions).total_contributions = _
  rw [runYearPeriods, foldl_periodStep_total pr c hc ppc, countP_range_dvd]

theorem stateAfter_total (P r c : ℚ) (hc : 0 < c) (cf xf : ℕ) :
    ∀ y : ℕ, (stateAfter P r c cf xf y).total_contributions
      = c * ((y * (cf / periodsPerContribution cf xf) : ℕ) : ℚ) := by
  intro y
  induction y with
  | zero => simp [stateAfter]
  | succ y ih =>
    rw [stateAfter_succ, yearStep_total _ _ hc, ih]
    push_cast
    ring

/-- C4: with `contribution > 0` (a whole number of cents, as a currency
amount), `periods_per_contribution = max(1, compound_freq // contribution_freq)`;
a contribution is added at the end of exactly those periods whose 1-based
index is divisible by it (so when `contribution_freq > compound_freq`, every
period), and `total_contributions` is the number of such periods over all
years times the contribution amount. -/
theorem contribution_timing_policy (P r c : ℚ) (Y cf xf : ℕ)
    (hY : 1 ≤ Y) (hcf : 1 ≤ cf) (hxf : 1 ≤ xf) (hc : 0 < c)
    (hm : ∃ m : ℤ, c = (m : ℚ) / 100) :
    periodsPerContribution cf xf = max 1 (cf / xf)
    ∧ (cf < xf → periodsPerContribution cf xf = 1)
    ∧ (∀ (st : PeriodState) (p : ℕ),
        (periodStep (r / cf) c (periodsPerContribution cf xf) st p).total_contributions
          = st.total_contributions
            + if periodsPerContribution cf xf ∣ (p + 1) then c else 0)
    ∧ (calculate_compound_interest P r Y cf c xf).total_contributions
        = ((Y * (cf / periodsPerContribution cf xf) : ℕ) : ℚ) * c := by
  obtain ⟨m, rfl⟩ := hm
  refine ⟨periodsPerContribution_eq_max cf xf, ?_,
    fun st p => periodStep_total _ _ hc _ st p, ?_⟩
  · intro h
    rw [periodsPerContribution_eq_max, Nat.div_eq_of_lt h]
    simp
  · have ht : (calculate_compound_interest P r Y cf ((m : ℚ)/100) xf).total_contributions
        = roundCurrency ((stateAfter P r ((m : ℚ)/100) cf xf Y).total_contributions) :=
      rfl
    rw [ht, stateAfter_total _ _ _ hc]
    generalize Y * (cf / periodsPerContribution cf xf) = N
    have h1 : ((m : ℚ)/100) * (N : ℚ) = ((m * (N : ℤ) : ℤ) : ℚ) / 100 := by
      push_cast
      ring
    rw [h1, roundCurrency_cents]
    push_cast
    ring

/-- Witness for C4 at the spec scenario: principal 0, rate 5%, 5 years,
monthly compounding, 100 per month contributed. -/
theorem contribution_timing_policy_witness :
    periodsPerContribution 12 12 = max 1 (12 / 12)
    ∧ (12 < 12 → periodsPerContribution 12 12 = 1)
    ∧ (∀ (st : PeriodState) (p : ℕ),
        (periodStep ((5:ℚ)/100 / ((12:ℕ):ℚ)) 100 (periodsPerContribution 12 12) st p).total_contributions
          = st.total_contributions
            + if periodsPerContribution 12 12 ∣ (p + 1) then 100 else 0)
    ∧ (calculate_compound_interest 0 (5/100) 5 12 100 12).total_contributions
        = ((5 * (12 / periodsPerContribution 12 12) : ℕ) : ℚ) * 100 :=
  contribution_timing_policy 0 (5/100) 100 5 12 12 (by norm_num) (by norm_num)
    (by norm_num) (by norm_num) ⟨10000, by norm_num⟩

/-- C5 counterexample: at rate `-2`, frequency `1`, the closed-form
evaluation is undefined (`1 + r/n = -1 ≤ 0`), yet `calculate_doubling_time`
returns positive infinity, not the Rule-of-72 value that the claim
prescribes. -/
theorem doubling_time_fallback_counterexample :
    (1 + (-2 : ℚ) / ((1:ℕ):ℚ) ≤ 0)
    ∧ calculate_doubling_time (-2) 1 = DTime.inf
    ∧ DTime.inf ≠ DTime.ruleOf72 (roundHalfEvenAt 1 (72 / ((-2 : ℚ) * 100))) := by
  refine ⟨by norm_num, ?_, by simp⟩
  norm_num [calculate_doubling_time]

/-- C5 (amended): when the closed-form evaluation of the doubling time is
undefined — `1 + r/n ≤ 0` (log domain error) or `r = 0` (zero denominator in
exact arithmetic) — `calculate_doubling_time` returns positive infinity,
because such a rate is necessarily `≤ 0` and the non-positive-rate check
precedes the fallback; the Rule-of-72 fallback is reserved for positive
rates whose denominator evaluates to zero. -/
theorem doubling_time_undefined_returns_inf (r : ℚ) (n : ℕ) (hn : 1 ≤ n)
    (h : 1 + r / (n : ℚ) ≤ 0 ∨ r = 0) :
    calculate_doubling_time r n = DTime.inf := by
  have hr : r ≤ 0 := by
    rcases h with h | h
    · have hn0 : (0 : ℚ) < (n : ℚ) := by exact_mod_cast hn
      have h2 : r / (n : ℚ) ≤ -1 := by linarith
      rw [div_le_iff₀ hn0] at h2
      have hn1 : (1 : ℚ) ≤ (n : ℚ) := by exact_mod_cast hn
      nlinarith
    · simp [h]
  unfold calculate_doubling_time
  rw [if_pos hr]

/-- Witness for the amended C5 at rate `-2`, frequency `1`. -/
theorem doubling_time_undefined_returns_inf_witness :
    calculate_doubling_time (-2) 1 = DTime.inf :=
  doubling_time_undefined_returns_inf (-2) 1 (le_refl 1) (Or.inl (by norm_num))

/-- C6: for every rate `≤ 0` and positive compounding frequency,
`calculate_doubling_time` returns positive infinity. -/
theorem doubling_time_nonpositive_rate (r : ℚ) (n : ℕ) (hn : 1 ≤ n)
    (hr : r ≤ 0) :
    calculate_doubling_time r n = DTime.inf := by
  unfold calculate_doubling_time
  rw [if_pos hr]

/-- Witness for C6 at rate `0`, monthly compounding. -/
theorem doubling_time_nonpositive_rate_witness :
    calculate_doubling_time 0 12 = DTime.inf :=
  doubling_time_nonpositive_rate 0 12 (by norm_num) (le_refl 0)

/-- C7 (amended): each snapshot's `ytd_growth_pct` equals
`year_interest / year_start_balance * 100` rounded to 2 decimals whenever
the starting balance of that year is positive, and equals `0` whenever the
starting balance is not positive (the converse of the zero case fails: a
zero growth value does not imply a zero starting balance). -/
theorem ytd_growth_formula (P r c : ℚ) (Y cf xf : ℕ)
    (hY : 1 ≤ Y) (hcf : 1 ≤ cf) (hxf : 1 ≤ xf) (i : ℕ) (hi : i < Y) :
    ((calculate_compound_interest P r Y cf c xf).yearly_breakdown[i]?).map
        (fun s => s.ytd_growth_pct)
      = some (
          if 0 < (stateAfter P r c cf xf i).balance then
            roundHalfEvenAt 2
              ((runYearPeriods (r / cf) c (periodsPerContribution cf xf) cf
                  (stateAfter P r c cf xf i).balance
                  (stateAfter P r c cf xf i).total_contributions).year_interest
                / (stateAfter P r c cf xf i).balance * 100)
          else 0) := by
  have hb : (calculate_compound_interest P r Y cf c xf).yearly_breakdown
      = (List.range Y).map (snapshotOfYear P r c cf xf) :=
    stateAfter_breakdown P r c cf xf Y
  rw [hb, List.getElem?_map, List.getElem?_range hi]
  rfl

/-- Witness for the amended C7: year 1 of the 7%/monthly scenario. -/
theorem ytd_growth_formula_witness :
    ((calculate_compound_interest 10000 (7/100) 10 12 0 12).yearly_breakdown[0]?).map
        (fun s => s.ytd_growth_pct)
      = some (
          if 0 < (stateAfter 10000 (7/100) 0 12 12 0).balance then
            roundHalfEvenAt 2
              ((runYearPeriods ((7:ℚ)/100 / ((12:ℕ):ℚ)) 0 (periodsPerContribution 12 12) 12
                  (stateAfter 10000 (7/100) 0 12 12 0).balance
                  (stateAfter 10000 (7/100) 0 12 12 0).total_contributions).year_interest
                / (stateAfter 10000 (7/100) 0 12 12 0).balance * 100)
          else 0) :=
  ytd_growth_formula 10000 (7/100) 0 10 12 12 (by norm_num) (by norm_num)
    (by norm_num) 0 (by norm_num)

/-- C7 counterexample: with principal 100, rate 0, one year of annual
compounding, the sole snapshot has `ytd_growth_pct = 0` although the year
started with balance `100 ≠ 0`, so the growth value being `0` is not
equivalent to the starting balance being `0`. -/
theorem ytd_growth_zero_counterexample :
    (calculate_compound_interest 100 0 1 1 0 12).yearly_breakdown.map
        (fun s => s.ytd_growth_pct) = [0]
    ∧ (stateAfter 100 0 0 1 12 0).balance = 100
    ∧ ((100 : ℚ) ≠ 0) := by
  refine ⟨?_, rfl, by norm_num⟩
  norm_num [calculate_compound_interest, stateAfter, yearStep, runYearPeriods,
    periodStep, periodsPerContribution, roundCurrency, roundHalfEvenAt,
    floorQ_eq, List.range', List.range, List.range.loop]

/-- C8: with the quiet render option set, the CSV formatter emits exactly a
`final_amount` header row followed by the single value, the JSON formatter
emits an object with only a `final_amount` field, and neither output
depends on the yearly breakdown (no per-year rows appear). -/
theorem quiet_output_final_amount_only (res : ProjectionResult)
    (opts : RenderOptions) (hq : opts.quiet = true) :
    CsvFormatter_render res opts
        = [[CsvCell.str "final_amount"], [CsvCell.num res.final_amount]]
    ∧ JsonFormatter_render res opts
        = JValue.obj [("final_amount", JValue.num res.final_amount)]
    ∧ CsvFormatter_render res opts
        = CsvFormatter_render { res with yearly_breakdown := [] } opts
    ∧ JsonFormatter_render res opts
        = JsonFormatter_render { res with yearly_breakdown := [] } opts := by
  refine ⟨?_, ?_, ?_, ?_⟩ <;> simp [CsvFormatter_render, JsonFormatter_render, hq]

/-- Witness for C8 at a concrete projection. -/
theorem quiet_output_final_amount_only_witness :
    CsvFormatter_render (calculate_compound_interest 100 0 1 1 0 12)
        ⟨true, true, true⟩
        = [[CsvCell.str "final_amount"],
           [CsvCell.num (calculate_compound_interest 100 0 1 1 0 12).final_amount]]
    ∧ JsonFormatter_render (calculate_compound_interest 100 0 1 1 0 12)
        ⟨true, true, true⟩
        = JValue.obj [("final_amount",
            JValue.num (calculate_compound_interest 100 0 1 1 0 12).final_amount)]
    ∧ CsvFormatter_render (calculate_compound_interest 100 0 1 1 0 12)
        ⟨true, true, true⟩
        = CsvFormatter_render
            { calculate_compound_interest 100 0 1 1 0 12 with yearly_breakdown := [] }
            ⟨true, true, true⟩
    ∧ JsonFormatter_render (calculate_compound_interest 100 0 1 1 0 12)
        ⟨true, true, true⟩
        = JsonFormatter_render
            { calculate_compound_interest 100 0 1 1 0 12 with yearly_breakdown := [] }
            ⟨true, true, true⟩ :=
  quiet_output_final_amount_only (calculate_compound_interest 100 0 1 1 0 12)
    ⟨true, true, true⟩ rfl

/-- C9: `parse_frequency` fails with the message listing the valid
frequency names exactly when the stripped, lowercased input is neither a
key of `FREQUENCY_MAP` nor a valid Python integer literal; the named
periods map to 365, 52, 26, 12, 4, 2, 1 and 1 respectively, and the error
message enumerates exactly the eight names. -/
theorem parse_frequency_error_iff :
    (∀ s : String,
      parse_frequency s = .error (freqErrorMessage (strLower (strStrip s)))
        ↔ (FREQUENCY_MAP.lookup (strLower (strStrip s)) = none
            ∧ pythonIntOfString (strLower (strStrip s)) = none))
    ∧ freqValidNames
        = "daily, weekly, biweekly, monthly, quarterly, semiannually, annually, yearly"
    ∧ parse_frequency "daily" = .ok 365
    ∧ parse_frequency "weekly" = .ok 52
    ∧ parse_frequency "biweekly" = .ok 26
    ∧ parse_frequency "monthly" = .ok 12
    ∧ parse_frequency "quarterly" = .ok 4
    ∧ parse_frequency "semiannually" = .ok 2
    ∧ parse_frequency "annually" = .ok 1
    ∧ parse_frequency "yearly" = .ok 1 := by
  refine ⟨?_, by decide, by decide, by decide, by decide, by decide, by decide,
    by decide, by decide, by decide⟩
  intro s
  unfold parse_frequency
  rcases h1 : FREQUENCY_MAP.lookup (strLower (strStrip s)) with _ | n
  · rcases h2 : pythonIntOfString (strLower (strStrip s)) with _ | z
    · simp [h1, h2]
    · simp [h1, h2]
  · simp [h1]

/-- Witness for C9: an unrecognised name yields the enumerating error. -/
theorem parse_frequency_error_iff_witness :
    parse_frequency "fortnightly"
      = .error (freqErrorMessage (strLower (strStrip "fortnightly"))) :=
  (parse_frequency_error_iff.1 "fortnightly").mpr (by decide)

/-- C10: `parse_frequency` returns any integer it parses unchanged —
including zero and negative values, with no check that the result is at
least 1 — and a command line with compounding frequency string `"0"`
passes every check in `main` and reaches the engine with
`compound_freq = 0`, where the first operation divides the rate by it. -/
theorem nonpositive_frequency_passes_validation :
    (∀ (s : String) (z : ℤ),
        FREQUENCY_MAP.lookup (strLower (strStrip s)) = none →
        pythonIntOfString (strLower (strStrip s)) = some z →
        parse_frequency s = .ok z)
    ∧ parse_frequency "0" = .ok 0
    ∧ parse_frequency "-3" = .ok (-3)
    ∧ cliValidate 10000 (7/100) 10 "0" "monthly" 0
        = .ok ⟨10000, 7/100, 10, 0, 0, 12⟩ := by
  have h0 : parse_frequency "0" = .ok 0 := by decide
  have hm : parse_frequency "monthly" = .ok 12 := by decide
  refine ⟨?_, h0, by decide, ?_⟩
  · intro s z h1 h2
    unfold parse_frequency
    simp [h1, h2]
  · norm_num [cliValidate, h0, hm]

/-- Witness for C10: the general clause applied at the literal `"0"`. -/
theorem nonpositive_frequency_passes_validation_witness :
    parse_frequency "17" = .ok 17 :=
  nonpositive_frequency_passes_validation.1 "17" 17 (by decide) (by decide)

end Compound
